import Mathlib

/-!
# Verification of the KS LED controller against its specification

A shallow embedding of the two Python modules `led_control.py` and
`led_menu.py` of the ks-led-controller repository, together with theorems
settling the specification's claims about the Device Registry, the Command
Encoder, Discovery, and the Write Engine.

Modelling conventions:
* a Python `str` is modelled as a Lean `String`; where character-level work
  is needed, through its `.data` list of characters;
* Python `bytes` values are `List Nat` with each entry below 256;
* `bytes.fromhex` is the partial function `fromHex` returning `none` where
  Python raises `ValueError` (odd length or a non-hex character);
* the BLE adapter (bleak) is an oracle (`BleOracle`) giving the outcome of
  each connect / write / disconnect primitive; an engine run returns its
  result together with the trace of adapter events it performed;
* `asyncio.sleep t` is the trace event `Ev.sleepMs` (milliseconds).
-/

/-! ## Hexadecimal formatting and parsing (Python `f"{n:02X}"` and `bytes.fromhex`) -/

/-- The uppercase hexadecimal digit for `n < 16`, as Python `"%X"` prints it. -/
def hexDigitChar (n : Nat) : Char :=
  if n < 10 then Char.ofNat (48 + n) else Char.ofNat (55 + n)

/-- Fuel-driven core of uppercase hexadecimal printing, most significant digit
first.  `fuel` only bounds the recursion; `n + 1` fuel always suffices. -/
def natHexAux : Nat → Nat → List Char
  | 0, _ => []
  | fuel + 1, n =>
    if n < 16 then [hexDigitChar n]
    else natHexAux fuel (n / 16) ++ [hexDigitChar (n % 16)]

/-- Uppercase hexadecimal digits of `n` (no padding), e.g. `255 ↦ "FF"`. -/
def natHexChars (n : Nat) : List Char := natHexAux (n + 1) n

/-- Zero-pad `s` on the left to width `w`, as Python's `0`-fill does. -/
def pad0 (w : Nat) (s : List Char) : List Char :=
  List.replicate (w - s.length) '0' ++ s

/-- Python `f"{n:02X}"` for an arbitrary integer `n`: at least two characters,
the zero padding counted over the whole output including a minus sign. -/
def pyHex2 (n : Int) : List Char :=
  if n < 0 then '-' :: pad0 1 (natHexChars n.natAbs)
  else pad0 2 (natHexChars n.toNat)

/-- The value of a hexadecimal digit character, `none` for a non-hex character
(Python `bytes.fromhex` accepts both cases). -/
def hexVal (c : Char) : Option Nat :=
  if 48 ≤ c.toNat ∧ c.toNat ≤ 57 then some (c.toNat - 48)
  else if 65 ≤ c.toNat ∧ c.toNat ≤ 70 then some (c.toNat - 55)
  else if 97 ≤ c.toNat ∧ c.toNat ≤ 102 then some (c.toNat - 87)
  else none

/-- Python `bytes.fromhex`: pairs of hex digits to bytes, `none` (a raised
`ValueError`) on an odd-length string or a non-hex character. -/
def fromHex : List Char → Option (List Nat)
  | [] => some []
  | [_] => none
  | c1 :: c2 :: rest =>
    match hexVal c1, hexVal c2 with
    | some hi, some lo => (fromHex rest).map (fun bs => (16 * hi + lo) :: bs)
    | _, _ => none

/-- The two-digit hex spelling of each byte of a list, concatenated: the
canonical preimage of `fromHex` used in the evaluation lemmas below. -/
def hexPairs : List Nat → List Char
  | [] => []
  | n :: ns => hexDigitChar (n / 16) :: hexDigitChar (n % 16) :: hexPairs ns

lemma natHexAux_small (fuel n : Nat) (h : n < 16) :
    natHexAux (fuel + 1) n = [hexDigitChar n] := by
  simp [natHexAux, h]

lemma natHexChars_small (n : Nat) (h : n < 16) : natHexChars n = [hexDigitChar n] :=
  natHexAux_small n n h

lemma natHexChars_byte (n : Nat) (h16 : 16 ≤ n) (h : n < 256) :
    natHexChars n = [hexDigitChar (n / 16), hexDigitChar (n % 16)] := by
  obtain ⟨m, rfl⟩ : ∃ m, n = m + 1 := ⟨n - 1, by omega⟩
  have hdiv : (m + 1) / 16 < 16 := by omega
  show natHexAux ((m + 1) + 1) (m + 1) = _
  rw [natHexAux, if_neg (by omega)]
  rw [natHexAux_small m ((m + 1) / 16) hdiv]
  rfl

lemma hexDigitChar_zero : hexDigitChar 0 = '0' := by decide

/-- For a byte value, Python `f"{n:02X}"` is exactly the two hex digits. -/
lemma pyHex2_byte (n : Int) (h0 : 0 ≤ n) (h1 : n ≤ 255) :
    pyHex2 n = hexPairs [n.toNat] := by
  have hnn : ¬ n < 0 := by omega
  rw [pyHex2, if_neg hnn]
  have h256 : n.toNat < 256 := by omega
  by_cases h16 : n.toNat < 16
  · rw [natHexChars_small _ h16]
    have hd : n.toNat / 16 = 0 := Nat.div_eq_of_lt h16
    have hm : n.toNat % 16 = n.toNat := Nat.mod_eq_of_lt h16
    simp [pad0, hexPairs, hd, hm, hexDigitChar_zero]
  · rw [natHexChars_byte _ (by omega) h256]
    simp [pad0, hexPairs]

lemma hexVal_hexDigitChar (n : Nat) (h : n < 16) : hexVal (hexDigitChar n) = some n := by
  interval_cases n <;> decide

lemma hexPairs_append (l1 l2 : List Nat) :
    hexPairs (l1 ++ l2) = hexPairs l1 ++ hexPairs l2 := by
  induction l1 with
  | nil => rfl
  | cons n ns ih => simp [hexPairs, ih]

/-- `fromHex` inverts `hexPairs` on lists of bytes. -/
lemma fromHex_hexPairs (ns : List Nat) (h : ∀ n ∈ ns, n < 256) :
    fromHex (hexPairs ns) = some ns := by
  induction ns with
  | nil => rfl
  | cons n ns ih =>
    have hn : n < 256 := h n (by simp)
    have hdiv : n / 16 < 16 := by omega
    have hmod : n % 16 < 16 := by omega
    have hrest : fromHex (hexPairs ns) = some ns := ih (fun x hx => h x (by simp [hx]))
    simp only [hexPairs, fromHex, hexVal_hexDigitChar _ hdiv, hexVal_hexDigitChar _ hmod,
      hrest, Option.map_some]
    have : 16 * (n / 16) + n % 16 = n := by omega
    rw [this]
    rfl

/-! ## Command Encoder (`led_menu.build_on_off_cmd`, `build_color_cmd`, and the
brightness payload of `brightness_menu`) -/

/-- `build_on_off_cmd` of both modules: `bytes.fromhex("5BF001B5")` for on and
`bytes.fromhex("5B0F01B5")` for off (the literals always parse, so the
`ValueError` case cannot occur and `getD` never supplies its default). -/
def build_on_off_cmd (is_on : Bool) : List Nat :=
  (fromHex (if is_on then "5BF001B5".data else "5B0F01B5".data)).getD []

/-- `led_menu.build_color_cmd`: the RGB command, `f"5A0001{rgb}00{br}00A5"` for
the floor class and `f"7E070503{rgb}00EF"` for every other `device_type`, each
component formatted with `f"{x:02X}"` and the result parsed by
`bytes.fromhex`; `none` is the `ValueError` Python raises on a malformed hex
string.  The function itself performs no range validation. -/
def build_color_cmd (r g b : Int) (device_type : String) (brightness : Int) :
    Option (List Nat) :=
  let rgb_hex := pyHex2 r ++ pyHex2 g ++ pyHex2 b
  if device_type = "floor" then
    fromHex ("5A0001".data ++ rgb_hex ++ "00".data ++ pyHex2 brightness ++ "00A5".data)
  else
    fromHex ("7E070503".data ++ rgb_hex ++ "00EF".data)

/-- The brightness payload built inside `led_menu.brightness_menu` (lines
410-419): `f"5A000200000000{brightness:02X}00A5"` for the floor class; for any
other class the menu prints a "not yet supported" warning and sends nothing,
modelled as `none`. -/
def brightness_cmd (brightness : Int) (device_type : String) : Option (List Nat) :=
  if device_type = "floor" then
    fromHex ("5A000200000000".data ++ pyHex2 brightness ++ "00A5".data)
  else none

/-- Evaluation of the ceiling color command on in-range components. -/
lemma ceiling_cmd_eval (r g b : Int) (hr0 : 0 ≤ r) (hr1 : r ≤ 255) (hg0 : 0 ≤ g)
    (hg1 : g ≤ 255) (hb0 : 0 ≤ b) (hb1 : b ≤ 255) :
    build_color_cmd r g b "ceiling" 255 =
      some [126, 7, 5, 3, r.toNat, g.toNat, b.toNat, 0, 239] := by
  rw [build_color_cmd]
  rw [if_neg (by decide)]
  rw [pyHex2_byte r hr0 hr1, pyHex2_byte g hg0 hg1, pyHex2_byte b hb0 hb1]
  rw [show "7E070503".data = hexPairs [126, 7, 5, 3] from by decide]
  rw [show "00EF".data = hexPairs [0, 239] from by decide]
  rw [← hexPairs_append, ← hexPairs_append, ← hexPairs_append, ← hexPairs_append]
  rw [fromHex_hexPairs]
  · simp
  · intro x hx
    simp at hx
    rcases hx with h | h | h | h | h | h | h | h | h <;> omega

/-- Evaluation of the floor color command on in-range components. -/
lemma floor_cmd_eval (r g b : Int) (hr0 : 0 ≤ r) (hr1 : r ≤ 255) (hg0 : 0 ≤ g)
    (hg1 : g ≤ 255) (hb0 : 0 ≤ b) (hb1 : b ≤ 255) :
    build_color_cmd r g b "floor" 255 =
      some [90, 0, 1, r.toNat, g.toNat, b.toNat, 0, 255, 0, 165] := by
  rw [build_color_cmd]
  rw [if_pos rfl]
  rw [pyHex2_byte r hr0 hr1, pyHex2_byte g hg0 hg1, pyHex2_byte b hb0 hb1]
  rw [show "5A0001".data = hexPairs [90, 0, 1] from by decide]
  rw [show "00".data = hexPairs [0] from by decide]
  rw [show pyHex2 255 = hexPairs [255] from by decide]
  rw [show "00A5".data = hexPairs [0, 165] from by decide]
  rw [← hexPairs_append, ← hexPairs_append, ← hexPairs_append, ← hexPairs_append,
    ← hexPairs_append, ← hexPairs_append]
  rw [fromHex_hexPairs]
  · simp
  · intro x hx
    simp at hx
    rcases hx with h | h | h | h | h | h | h | h | h | h <;> omega

/-- Evaluation of the floor brightness payload on an in-range level. -/
lemma brightness_cmd_eval (lv : Int) (h0 : 0 ≤ lv) (h1 : lv ≤ 255) :
    brightness_cmd lv "floor" = some [90, 0, 2, 0, 0, 0, 0, lv.toNat, 0, 165] := by
  rw [brightness_cmd, if_pos rfl]
  rw [pyHex2_byte lv h0 h1]
  rw [show "5A000200000000".data = hexPairs [90, 0, 2, 0, 0, 0, 0] from by decide]
  rw [show "00A5".data = hexPairs [0, 165] from by decide]
  rw [← hexPairs_append, ← hexPairs_append]
  rw [fromHex_hexPairs]
  · simp
  · intro x hx
    simp at hx
    rcases hx with h | h | h | h | h | h | h | h | h | h <;> omega

/-! ## Device Registry and Discovery (`led_menu.DEVICE_MAPPINGS`,
`led_menu.scan_devices`) -/

/-- One entry of `led_menu.DEVICE_MAPPINGS`: advertised-name prefix string,
GATT service short code, write-characteristic short code, device class. -/
structure DeviceMapping where
  namePre : String
  service : String
  write : String
  type : String
deriving DecidableEq

/-- `led_menu.DEVICE_MAPPINGS` in its (insertion-preserving) iteration order. -/
def DEVICE_MAPPINGS : List DeviceMapping :=
  [⟨"KS03-", "FFF0", "FFF3", "ceiling"⟩,
   ⟨"KS03~", "AFD0", "AFD1", "floor"⟩,
   ⟨"KS04-", "FFF0", "FFF3", "ceiling"⟩,
   ⟨"KS01-", "AE00", "AE01", "ceiling"⟩,
   ⟨"KS02-", "AE00", "AE01", "ceiling"⟩]

/-- Python `str.startswith` on the character lists of the two strings. -/
def startsWithChars : List Char → List Char → Bool
  | _, [] => true
  | [], _ :: _ => false
  | c :: cs, d :: ds => c == d && startsWithChars cs ds

/-- Python `name.startswith(p)`. -/
def pyStartsWith (s p : String) : Bool := startsWithChars s.data p.data

/-- The registry lookup of `led_menu.scan_devices`: iterate the mapping table
in order and keep the first entry whose prefix the advertised name starts
with (the Python inner `for`/`if`/`break`). -/
def resolveMapping (name : String) : Option DeviceMapping :=
  DEVICE_MAPPINGS.find? (fun m => pyStartsWith name m.namePre)

lemma startsWithChars_iff (p s : List Char) :
    startsWithChars s p = true ↔ p <+: s := by
  induction p generalizing s with
  | nil => simp [startsWithChars]
  | cons c cs ih =>
    cases s with
    | nil => simp [startsWithChars]
    | cons d ds =>
      simp only [startsWithChars, Bool.and_eq_true, beq_iff_eq, ih,
        List.cons_prefix_cons]
      exact and_congr_left (fun _ => eq_comm)

/-- The filtering `for` loop of `led_menu.scan_devices`: each advertisement
carries an address and an optional name (`dev.name or ""` reads a missing
name as the empty string); a device is kept, with its matched prefix, when
the registry resolves its name; otherwise it is dropped silently. -/
def scanFilterLoop : List (String × Option String) → List (String × String × String)
  | [] => []
  | d :: rest =>
    match resolveMapping (d.2.getD "") with
    | some m => (d.1, d.2.getD "", m.namePre) :: scanFilterLoop rest
    | none => scanFilterLoop rest

/-- `led_menu.scan_devices`: delegate to the scanner for `timeout` seconds
(the scanner is the oracle `discover`), then filter by the registry.  The
function performs no validation of `timeout`. -/
def scan_devices (discover : ℚ → List (String × Option String)) (timeout : ℚ) :
    List (String × String × String) :=
  scanFilterLoop (discover timeout)

lemma scanFilterLoop_eq_filterMap (l : List (String × Option String)) :
    scanFilterLoop l = l.filterMap (fun d =>
      (resolveMapping (d.2.getD "")).map (fun m => (d.1, d.2.getD "", m.namePre))) := by
  induction l with
  | nil => rfl
  | cons d rest ih =>
    rcases hr : resolveMapping (d.2.getD "") with _ | m <;>
      simp [scanFilterLoop, hr, ih, List.filterMap_cons]

/-! ## Write Engine (`led_control.write_command`, `led_menu.write_command`,
and the color path of `led_menu.send_command`) -/

/-- `UUID_TEMPLATE % short`: the fixed Bluetooth base-UUID substitution. -/
def uuidOf (short : String) : String :=
  "0000" ++ short ++ "-0000-1000-8000-00805f9b34fb"

/-- Python `str.upper()` for the ASCII short codes used here. -/
def sUpper (s : String) : String := String.mk (s.data.map Char.toUpper)

/-- The alternate-characteristic pairing of `led_control.write_command`: the
two legacy short codes `AFD3`/`FFF3` alias each other; every other short code
has no alternate. -/
def altShortFor (char_short : String) : Option String :=
  if sUpper char_short = "AFD3" then some "FFF3"
  else if sUpper char_short = "FFF3" then some "AFD3"
  else none

/-- The behaviour of the host BLE adapter during one engine call, read off at
each primitive: `connectErr` is the exception `client.connect()` raises (or
`none`); `isConnected` the value of `client.is_connected` right after the
connect; `writeRes uuid payload response` the exception a
`client.write_gatt_char(uuid, payload, response)` raises (or `none` for
success); `connectedAtCleanup` the value of `client.is_connected` re-read in
the `finally` block once the write phase ran; `disconnectErr` the exception
`client.disconnect()` raises (or `none`). -/
structure BleOracle where
  connectErr : Option String
  isConnected : Bool
  writeRes : String → List Nat → Bool → Option String
  connectedAtCleanup : Bool
  disconnectErr : Option String

/-- One observable adapter event of an engine run. -/
inductive Ev where
  | connect : Ev
  | sleepMs : Nat → Ev
  | write : String → List Nat → Bool → Ev
  | disconnect : Ev
deriving DecidableEq

/-- The result of one engine call.  `connectRaised` is the adapter exception
propagating out of `client.connect()`; `failedToConnect` the explicit
`RuntimeError("Failed to connect")`; `writeRaised` an adapter write exception
propagating raw (`led_menu.write_command`); `writeFailed` the final
`RuntimeError` of `led_control.write_command`, carrying the list of step
errors its message interpolates. -/
inductive WError where
  | connectRaised : String → WError
  | failedToConnect : WError
  | writeRaised : String → WError
  | writeFailed : List String → WError
deriving DecidableEq

/-- The nested `try`/`except` write cascade of `led_control.write_command`
(lines 94-138), run against write oracle `w`: primary characteristic without
then with response; on both failing, for an `AFD3`/`FFF3` short code also the
alternate characteristic without then with response.  Returns the outcome
(`Except.error` carries the step errors interpolated into the raised
`RuntimeError`: `e1, e2` or `e1, e2, e3` — the alternate no-response failure
is caught by a bare `except` and its error discarded) and the list of write
attempts `(uuid, payload, response)` in order. -/
def writePhase (w : String → List Nat → Bool → Option String) (char_short : String)
    (payload : List Nat) :
    Except (List String) Unit × List (String × List Nat × Bool) :=
  let char_uuid := uuidOf char_short
  match w char_uuid payload false with
  | none => (Except.ok (), [(char_uuid, payload, false)])
  | some e1 =>
    match w char_uuid payload true with
    | none => (Except.ok (), [(char_uuid, payload, false), (char_uuid, payload, true)])
    | some e2 =>
      match altShortFor char_short with
      | none =>
        (Except.error [e1, e2],
         [(char_uuid, payload, false), (char_uuid, payload, true)])
      | some alt =>
        let alt_uuid := uuidOf alt
        match w alt_uuid payload false with
        | none =>
          (Except.ok (),
           [(char_uuid, payload, false), (char_uuid, payload, true),
            (alt_uuid, payload, false)])
        | some _ =>
          match w alt_uuid payload true with
          | none =>
            (Except.ok (),
             [(char_uuid, payload, false), (char_uuid, payload, true),
              (alt_uuid, payload, false), (alt_uuid, payload, true)])
          | some e3 =>
            (Except.error [e1, e2, e3],
             [(char_uuid, payload, false), (char_uuid, payload, true),
              (alt_uuid, payload, false), (alt_uuid, payload, true)])

/-- `led_control.write_command` run against oracle `o`: connect (whose raised
exception propagates), the `is_connected` check, a 0.3 s settle delay, the
fallback write cascade, a 0.2 s settle delay on success, and the `finally`
block, which attempts a disconnect exactly when the client still reports
connected and swallows any disconnect exception.  Returns the call's result
and its adapter event trace. -/
def write_command (o : BleOracle) (char_short : String) (payload : List Nat) :
    Except WError Unit × List Ev :=
  match o.connectErr with
  | some e => (Except.error (WError.connectRaised e), [Ev.connect])
  | none =>
    if o.isConnected then
      let wp := writePhase o.writeRes char_short payload
      let writeEvs := wp.2.map (fun a => Ev.write a.1 a.2.1 a.2.2)
      let disc : List Ev := if o.connectedAtCleanup then [Ev.disconnect] else []
      match wp.1 with
      | Except.ok _ =>
        (Except.ok (),
         Ev.connect :: Ev.sleepMs 300 :: (writeEvs ++ [Ev.sleepMs 200] ++ disc))
      | Except.error errs =>
        (Except.error (WError.writeFailed errs),
         Ev.connect :: Ev.sleepMs 300 :: (writeEvs ++ disc))
    else
      (Except.error WError.failedToConnect, [Ev.connect])

/-- `led_menu.write_command` run against oracle `o`: connect, the
`is_connected` check, a 0.3 s settle delay, a write without response with one
fallback to a write with response (whose exception propagates raw), a 0.2 s
delay, and the same guarded best-effort disconnect in `finally`.  No
alternate characteristic is ever tried. -/
def menu_write_command (o : BleOracle) (char_short : String) (payload : List Nat) :
    Except WError Unit × List Ev :=
  let char_uuid := uuidOf char_short
  match o.connectErr with
  | some e => (Except.error (WError.connectRaised e), [Ev.connect])
  | none =>
    if o.isConnected then
      let disc : List Ev := if o.connectedAtCleanup then [Ev.disconnect] else []
      match o.writeRes char_uuid payload false with
      | none =>
        (Except.ok (),
         [Ev.connect, Ev.sleepMs 300, Ev.write char_uuid payload false,
          Ev.sleepMs 200] ++ disc)
      | some _ =>
        match o.writeRes char_uuid payload true with
        | none =>
          (Except.ok (),
           [Ev.connect, Ev.sleepMs 300, Ev.write char_uuid payload false,
            Ev.write char_uuid payload true, Ev.sleepMs 200] ++ disc)
        | some e2 =>
          (Except.error (WError.writeRaised e2),
           [Ev.connect, Ev.sleepMs 300, Ev.write char_uuid payload false,
            Ev.write char_uuid payload true] ++ disc)
    else
      (Except.error WError.failedToConnect, [Ev.connect])

/-- The outcome of `led_menu.send_command` as the user sees it: the success
message, or the failure message carrying the caught exception's text. -/
inductive SendResult where
  | success : SendResult
  | failed : String → SendResult
deriving DecidableEq

/-- The `is_color` branch of `led_menu.send_command` (lines 264-281) run
against oracle `o`: connect (with no `is_connected` check), 0.3 s delay, the
ON command written without response, 0.5 s delay, the color payload written
without response, 0.2 s delay, then an unguarded `await client.disconnect()`.
Any exception — the disconnect's included — lands in the surrounding
`except` and produces the failure message; when a write raises, the
disconnect is never reached. -/
def send_command_color (o : BleOracle) (char_short : String) (payload : List Nat) :
    SendResult × List Ev :=
  let char_uuid := uuidOf char_short
  let on_cmd := build_on_off_cmd true
  match o.connectErr with
  | some e => (SendResult.failed e, [Ev.connect])
  | none =>
    match o.writeRes char_uuid on_cmd false with
    | some e =>
      (SendResult.failed e,
       [Ev.connect, Ev.sleepMs 300, Ev.write char_uuid on_cmd false])
    | none =>
      match o.writeRes char_uuid payload false with
      | some e =>
        (SendResult.failed e,
         [Ev.connect, Ev.sleepMs 300, Ev.write char_uuid on_cmd false,
          Ev.sleepMs 500, Ev.write char_uuid payload false])
      | none =>
        match o.disconnectErr with
        | some e =>
          (SendResult.failed e,
           [Ev.connect, Ev.sleepMs 300, Ev.write char_uuid on_cmd false,
            Ev.sleepMs 500, Ev.write char_uuid payload false, Ev.sleepMs 200,
            Ev.disconnect])
        | none =>
          (SendResult.success,
           [Ev.connect, Ev.sleepMs 300, Ev.write char_uuid on_cmd false,
            Ev.sleepMs 500, Ev.write char_uuid payload false, Ev.sleepMs 200,
            Ev.disconnect])

/-- The write attempts `(uuid, payload, response)` recorded in a trace. -/
def writeEventsOf : List Ev → List (String × List Nat × Bool)
  | [] => []
  | Ev.write u p r :: rest => (u, p, r) :: writeEventsOf rest
  | _ :: rest => writeEventsOf rest

/-- The attempt sequence the specification prescribes for a short code:
primary characteristic without then with acknowledgement, and, exactly when
an alternate pairing exists, the alternate characteristic without then with
acknowledgement. -/
def applicableAttempts (char_short : String) : List (String × Bool) :=
  [(uuidOf char_short, false), (uuidOf char_short, true)] ++
    (match altShortFor char_short with
     | some alt => [(uuidOf alt, false), (uuidOf alt, true)]
     | none => [])

/-- The specification's "stop at first success" semantics: the attempts of a
sequence up to and including the first that succeeds (all of them when none
succeeds). -/
def takeToFirstSuccess (w : String → List Nat → Bool → Option String)
    (payload : List Nat) : List (String × Bool) → List (String × Bool)
  | [] => []
  | a :: rest =>
    if w a.1 payload a.2 = none then [a]
    else a :: takeToFirstSuccess w payload rest

lemma writeEventsOf_append (l1 l2 : List Ev) :
    writeEventsOf (l1 ++ l2) = writeEventsOf l1 ++ writeEventsOf l2 := by
  induction l1 with
  | nil => rfl
  | cons e t ih => cases e <;> simp [writeEventsOf, ih]

lemma writeEventsOf_writes (l : List (String × List Nat × Bool)) :
    writeEventsOf (l.map (fun a => Ev.write a.1 a.2.1 a.2.2)) = l := by
  induction l with
  | nil => rfl
  | cons a t ih => simp [writeEventsOf, ih]

/-- Characterization of the write cascade: its attempt list is exactly the
prescribed sequence cut at the first success, and it succeeds exactly when
some applicable attempt succeeds. -/
lemma writePhase_trace (w : String → List Nat → Bool → Option String)
    (cs : String) (payload : List Nat) :
    (writePhase w cs payload).2 =
      (takeToFirstSuccess w payload (applicableAttempts cs)).map
        (fun a => (a.1, payload, a.2)) ∧
    ((writePhase w cs payload).1 = Except.ok () ↔
      (applicableAttempts cs).any (fun a => (w a.1 payload a.2).isNone) = true) := by
  rcases h1 : w (uuidOf cs) payload false with _ | e1
  · rcases ha : altShortFor cs with _ | alt <;>
      simp [writePhase, applicableAttempts, takeToFirstSuccess, h1, ha]
  · rcases h2 : w (uuidOf cs) payload true with _ | e2
    · rcases ha : altShortFor cs with _ | alt <;>
        simp [writePhase, applicableAttempts, takeToFirstSuccess, h1, h2, ha]
    · rcases ha : altShortFor cs with _ | alt
      · simp [writePhase, applicableAttempts, takeToFirstSuccess, h1, h2, ha]
      · rcases h3 : w (uuidOf alt) payload false with _ | e3
        · simp [writePhase, applicableAttempts, takeToFirstSuccess, h1, h2, ha, h3]
        · rcases h4 : w (uuidOf alt) payload true with _ | e4 <;>
            simp [writePhase, applicableAttempts, takeToFirstSuccess, h1, h2, ha,
              h3, h4]

/-- C1: For every deliver call (`led_control.write_command`), after a
successful connection the write attempts occur in exactly the order
primary-without-ack, primary-with-ack, alternate-without-ack,
alternate-with-ack, stopping at the first success; the alternate steps exist
exactly when the primary short code upper-cases to `AFD3` or `FFF3`, and the
call succeeds exactly when some applicable attempt succeeds. -/
theorem write_fallback_order (o : BleOracle) (cs : String) (payload : List Nat)
    (hc : o.connectErr = none) (hic : o.isConnected = true) :
    writeEventsOf (write_command o cs payload).2 =
      (takeToFirstSuccess o.writeRes payload (applicableAttempts cs)).map
        (fun a => (a.1, payload, a.2)) ∧
    ((altShortFor cs).isSome ↔ (sUpper cs = "AFD3" ∨ sUpper cs = "FFF3")) ∧
    ((write_command o cs payload).1 = Except.ok () ↔
      (applicableAttempts cs).any
        (fun a => (o.writeRes a.1 payload a.2).isNone) = true) := by
  obtain ⟨htr, hok⟩ := writePhase_trace o.writeRes cs payload
  refine ⟨?_, ?_, ?_⟩
  · rcases hres : (writePhase o.writeRes cs payload).1 with e | v <;>
      rcases hcc : o.connectedAtCleanup <;>
      simpa [write_command, hc, hic, hres, hcc, writeEventsOf, writeEventsOf_append,
        writeEventsOf_writes] using htr
  · rw [altShortFor]
    split_ifs with hA hB
    · simp [hA]
    · simp [hB]
    · simp [hA, hB]
  · rw [← hok]
    rcases hres : (writePhase o.writeRes cs payload).1 with e | v <;>
      simp [write_command, hc, hic, hres]

/-- An adapter on which every write raises, with a distinct error naming the
target uuid and mode, and everything else succeeds. -/
def allFailOracle : BleOracle :=
  ⟨none, true, fun u _ r => some (u ++ (if r then "#ack" else "#noack")), true, none⟩

/-- An adapter on which everything, the very first write included, succeeds. -/
def happyOracle : BleOracle :=
  ⟨none, true, fun _ _ _ => none, true, none⟩

theorem write_fallback_order_witness :
    writeEventsOf (write_command happyOracle "AFD1" [91, 240, 1, 181]).2 =
      (takeToFirstSuccess happyOracle.writeRes [91, 240, 1, 181]
        (applicableAttempts "AFD1")).map (fun a => (a.1, [91, 240, 1, 181], a.2)) ∧
    ((altShortFor "AFD1").isSome ↔
      (sUpper "AFD1" = "AFD3" ∨ sUpper "AFD1" = "FFF3")) ∧
    ((write_command happyOracle "AFD1" [91, 240, 1, 181]).1 = Except.ok () ↔
      (applicableAttempts "AFD1").any
        (fun a => (happyOracle.writeRes a.1 [91, 240, 1, 181] a.2).isNone) = true) :=
  write_fallback_order happyOracle "AFD1" [91, 240, 1, 181] rfl rfl

/-- C2 counterexample: on an adapter failing all four attempts with distinct
errors, `write_command "FFF3"` makes four write attempts but its `WriteFailed`
carries only three step errors — the alternate no-acknowledgement error is
swallowed by the bare `except` — so the failure does not carry the distinct
error reason of each attempted step. -/
theorem write_errors_counterexample :
    (writeEventsOf (write_command allFailOracle "FFF3" [91]).2).length = 4 ∧
    (write_command allFailOracle "FFF3" [91]).1 =
      Except.error (WError.writeFailed
        [uuidOf "FFF3" ++ "#noack", uuidOf "FFF3" ++ "#ack",
         uuidOf "AFD3" ++ "#ack"]) ∧
    [uuidOf "FFF3" ++ "#noack", uuidOf "FFF3" ++ "#ack",
     uuidOf "AFD3" ++ "#ack"].length = 3 ∧
    (uuidOf "AFD3" ++ "#noack") ∉
      [uuidOf "FFF3" ++ "#noack", uuidOf "FFF3" ++ "#ack",
       uuidOf "AFD3" ++ "#ack"] := by
  refine ⟨by decide, by rfl, by decide, by decide⟩

/-- C2 (amended): when every applicable step fails, `write_command` fails
carrying multiple distinct step errors, never only the last one: with no
alternate pairing it carries both primary errors `[e1, e2]`; with an
alternate pairing, where four steps were attempted, it carries three of the
four — the errors of the two primary attempts and of the alternate
with-acknowledgement attempt; the alternate without-acknowledgement error is
swallowed. -/
theorem write_errors_carried (o : BleOracle) (cs alt : String) (payload : List Nat)
    (e1 e2 e3 e4 : String)
    (hc : o.connectErr = none) (hic : o.isConnected = true)
    (h1 : o.writeRes (uuidOf cs) payload false = some e1)
    (h2 : o.writeRes (uuidOf cs) payload true = some e2) :
    (altShortFor cs = none →
      (write_command o cs payload).1 =
        Except.error (WError.writeFailed [e1, e2])) ∧
    (altShortFor cs = some alt →
      o.writeRes (uuidOf alt) payload false = some e3 →
      o.writeRes (uuidOf alt) payload true = some e4 →
      (write_command o cs payload).1 =
        Except.error (WError.writeFailed [e1, e2, e4])) := by
  constructor
  · intro ha
    simp [write_command, hc, hic, writePhase, h1, h2, ha]
  · intro ha h3 h4
    simp [write_command, hc, hic, writePhase, h1, h2, ha, h3, h4]

theorem write_errors_carried_witness :
    (write_command allFailOracle "FFF3" [91]).1 =
      Except.error (WError.writeFailed
        [uuidOf "FFF3" ++ "#noack", uuidOf "FFF3" ++ "#ack",
         uuidOf "AFD3" ++ "#ack"]) :=
  (write_errors_carried allFailOracle "FFF3" "AFD3" [91]
      (uuidOf "FFF3" ++ "#noack") (uuidOf "FFF3" ++ "#ack")
      (uuidOf "AFD3" ++ "#noack") (uuidOf "AFD3" ++ "#ack")
      rfl rfl rfl rfl).2 rfl rfl rfl

/-- C10: the interactive menu's write engine (`led_menu.write_command`) only
ever writes to the primary characteristic derived from `char_short`: its
write attempts are a prefix of the two-element sequence
without-response-then-with-response on that characteristic, so there are at
most two attempts and no alternate-characteristic fallback. -/
theorem menu_write_attempts (o : BleOracle) (cs : String) (payload : List Nat) :
    writeEventsOf (menu_write_command o cs payload).2 <+:
      [(uuidOf cs, payload, false), (uuidOf cs, payload, true)] := by
  rcases hce : o.connectErr with _ | e
  · by_cases hic : o.isConnected
    · rcases h1 : o.writeRes (uuidOf cs) payload false with _ | e1
      · rcases hcc : o.connectedAtCleanup <;>
          simp [menu_write_command, hce, hic, h1, hcc, writeEventsOf,
            writeEventsOf_append]
      · rcases h2 : o.writeRes (uuidOf cs) payload true with _ | e2 <;>
          rcases hcc : o.connectedAtCleanup <;>
          simp [menu_write_command, hce, hic, h1, h2, hcc, writeEventsOf,
            writeEventsOf_append]
    · simp [menu_write_command, hce, hic, writeEventsOf]
  · simp [menu_write_command, hce, writeEventsOf]

/-- An adapter on which both writes succeed but the final disconnect raises. -/
def discFailOracle : BleOracle :=
  ⟨none, true, fun _ _ _ => none, true, some "boom"⟩

/-- An adapter on which `client.connect()` itself raises. -/
def connFailOracle : BleOracle :=
  ⟨some "no-route", true, fun _ _ _ => none, true, none⟩

/-- An adapter on which every write raises with the same error. -/
def writeFailOracle : BleOracle :=
  ⟨none, true, fun _ _ _ => some "werr", true, none⟩

/-- C8 counterexample: in `led_menu.send_command`'s color path a disconnect
failure is NOT swallowed — with both writes succeeding, a raising disconnect
turns the whole command into a reported failure; and when a write fails there
no disconnect is attempted at all.  Moreover even `write_command` attempts no
disconnect on its connection-failure exit path (the client never reports
connected there). -/
theorem disconnect_handling_counterexample :
    (send_command_color discFailOracle "AFD1" [90]).1 = SendResult.failed "boom" ∧
    Ev.disconnect ∈ (send_command_color discFailOracle "AFD1" [90]).2 ∧
    Ev.disconnect ∉ (send_command_color writeFailOracle "AFD1" [90]).2 ∧
    Ev.disconnect ∉ (write_command connFailOracle "AFD1" [90]).2 := by
  refine ⟨by rfl, by decide, by decide, by decide⟩

/-- C8 (amended): for `write_command` of BOTH modules the result never
depends on the disconnect outcome — two adapters agreeing on everything but
the disconnect yield the same result, the `finally` block's bare `except`
swallowing any disconnect error — and a disconnect is attempted exactly on
the exit paths where the client still reports connected (in particular not
after a connection failure).  The menu's color path (`send_command_color`)
does not share this guarantee. -/
theorem write_command_disconnect_swallowed (o o2 : BleOracle) (cs : String)
    (payload : List Nat)
    (h1 : o.connectErr = o2.connectErr) (h2 : o.isConnected = o2.isConnected)
    (h3 : o.writeRes = o2.writeRes)
    (h4 : o.connectedAtCleanup = o2.connectedAtCleanup) :
    (write_command o cs payload).1 = (write_command o2 cs payload).1 ∧
    (Ev.disconnect ∈ (write_command o cs payload).2 ↔
      (o.connectErr = none ∧ o.isConnected = true ∧
        o.connectedAtCleanup = true)) ∧
    (menu_write_command o cs payload).1 = (menu_write_command o2 cs payload).1 ∧
    (Ev.disconnect ∈ (menu_write_command o cs payload).2 ↔
      (o.connectErr = none ∧ o.isConnected = true ∧
        o.connectedAtCleanup = true)) := by
  obtain ⟨a, b, w, c, e⟩ := o
  obtain ⟨a2, b2, w2, c2, e2⟩ := o2
  simp only at h1 h2 h3 h4
  subst h1; subst h2; subst h3; subst h4
  refine ⟨rfl, ?_, rfl, ?_⟩
  · rcases a with _ | err
    · rcases hb : b
      · simp [write_command, hb]
      · rcases hres : (writePhase w cs payload).1 with er | v <;>
          rcases hc : c <;>
          simp [write_command, hb, hc, hres, List.mem_append, List.mem_map]
    · simp [write_command]
  · rcases a with _ | err
    · rcases hb : b
      · simp [menu_write_command, hb]
      · rcases hw1 : w (uuidOf cs) payload false with _ | e1
        · rcases hc : c <;>
            simp [menu_write_command, hb, hc, hw1, List.mem_append]
        · rcases hw2 : w (uuidOf cs) payload true with _ | e2 <;>
            rcases hc : c <;>
            simp [menu_write_command, hb, hc, hw1, hw2, List.mem_append]
    · simp [menu_write_command]

theorem write_command_disconnect_swallowed_witness :
    (write_command discFailOracle "AFD1" [90]).1 =
      (write_command happyOracle "AFD1" [90]).1 ∧
    (Ev.disconnect ∈ (write_command discFailOracle "AFD1" [90]).2 ↔
      (discFailOracle.connectErr = none ∧ discFailOracle.isConnected = true ∧
        discFailOracle.connectedAtCleanup = true)) ∧
    (menu_write_command discFailOracle "AFD1" [90]).1 =
      (menu_write_command happyOracle "AFD1" [90]).1 ∧
    (Ev.disconnect ∈ (menu_write_command discFailOracle "AFD1" [90]).2 ↔
      (discFailOracle.connectErr = none ∧ discFailOracle.isConnected = true ∧
        discFailOracle.connectedAtCleanup = true)) :=
  write_command_disconnect_swallowed discFailOracle happyOracle "AFD1" [90]
    rfl rfl rfl rfl

/-! ## Encoder claims -/

/-- C3 counterexample: no single reading of "4th-6th bytes" fits both
classes.  At `r = 255, g = 0, b = 0` the ceiling command's fourth byte
(index 3) is the header's `3`, not `r`, while the floor command's byte at
index 4 is `g = 0`, not `r`; so "the 4th-6th bytes equal r, g, b" fails for
the ceiling class under one-based counting and for the floor class under
zero-based counting. -/
theorem encode_color_positions_counterexample :
    build_color_cmd 255 0 0 "ceiling" 255 =
      some [126, 7, 5, 3, 255, 0, 0, 0, 239] ∧
    [126, 7, 5, 3, 255, 0, 0, 0, 239].get? 3 = some 3 ∧
    build_color_cmd 255 0 0 "floor" 255 =
      some [90, 0, 1, 255, 0, 0, 0, 255, 0, 165] ∧
    [90, 0, 1, 255, 0, 0, 0, 255, 0, 165].get? 4 = some 0 ∧
    (3 : Nat) ≠ 255 ∧ (0 : Nat) ≠ 255 := by
  refine ⟨by rfl, by decide, by rfl, by decide, by decide, by decide⟩

/-- C3 (amended): for components in 0..255, `build_color_cmd` for the ceiling
class returns exactly 9 bytes whose 5th-7th bytes (indices 4-6) are `r, g, b`
in order, and for the floor class exactly 10 bytes whose 4th-6th bytes
(indices 3-5) are `r, g, b`. -/
theorem encode_color_layout (r g b : Int) (hr0 : 0 ≤ r) (hr1 : r ≤ 255)
    (hg0 : 0 ≤ g) (hg1 : g ≤ 255) (hb0 : 0 ≤ b) (hb1 : b ≤ 255) :
    build_color_cmd r g b "ceiling" 255 =
      some [126, 7, 5, 3, r.toNat, g.toNat, b.toNat, 0, 239] ∧
    (build_color_cmd r g b "ceiling" 255).map List.length = some 9 ∧
    (build_color_cmd r g b "ceiling" 255).map (fun l => l.get? 4) =
      some (some r.toNat) ∧
    (build_color_cmd r g b "ceiling" 255).map (fun l => l.get? 5) =
      some (some g.toNat) ∧
    (build_color_cmd r g b "ceiling" 255).map (fun l => l.get? 6) =
      some (some b.toNat) ∧
    build_color_cmd r g b "floor" 255 =
      some [90, 0, 1, r.toNat, g.toNat, b.toNat, 0, 255, 0, 165] ∧
    (build_color_cmd r g b "floor" 255).map List.length = some 10 ∧
    (build_color_cmd r g b "floor" 255).map (fun l => l.get? 3) =
      some (some r.toNat) ∧
    (build_color_cmd r g b "floor" 255).map (fun l => l.get? 4) =
      some (some g.toNat) ∧
    (build_color_cmd r g b "floor" 255).map (fun l => l.get? 5) =
      some (some b.toNat) := by
  have hcl := ceiling_cmd_eval r g b hr0 hr1 hg0 hg1 hb0 hb1
  have hfl := floor_cmd_eval r g b hr0 hr1 hg0 hg1 hb0 hb1
  refine ⟨hcl, ?_, ?_, ?_, ?_, hfl, ?_, ?_, ?_, ?_⟩ <;> simp [hcl, hfl]

theorem encode_color_layout_witness :
    build_color_cmd 10 20 30 "ceiling" 255 =
      some [126, 7, 5, 3, (10 : Int).toNat, (20 : Int).toNat, (30 : Int).toNat,
        0, 239] ∧
    (build_color_cmd 10 20 30 "ceiling" 255).map List.length = some 9 ∧
    (build_color_cmd 10 20 30 "ceiling" 255).map (fun l => l.get? 4) =
      some (some (10 : Int).toNat) ∧
    (build_color_cmd 10 20 30 "ceiling" 255).map (fun l => l.get? 5) =
      some (some (20 : Int).toNat) ∧
    (build_color_cmd 10 20 30 "ceiling" 255).map (fun l => l.get? 6) =
      some (some (30 : Int).toNat) ∧
    build_color_cmd 10 20 30 "floor" 255 =
      some [90, 0, 1, (10 : Int).toNat, (20 : Int).toNat, (30 : Int).toNat,
        0, 255, 0, 165] ∧
    (build_color_cmd 10 20 30 "floor" 255).map List.length = some 10 ∧
    (build_color_cmd 10 20 30 "floor" 255).map (fun l => l.get? 3) =
      some (some (10 : Int).toNat) ∧
    (build_color_cmd 10 20 30 "floor" 255).map (fun l => l.get? 4) =
      some (some (20 : Int).toNat) ∧
    (build_color_cmd 10 20 30 "floor" 255).map (fun l => l.get? 5) =
      some (some (30 : Int).toNat) :=
  encode_color_layout 10 20 30 (by decide) (by decide) (by decide) (by decide)
    (by decide) (by decide)

/-- C4 counterexample: `build_color_cmd` does not reject every out-of-range
component — `r = 4096` (outside 0..255) is silently encoded, producing a
well-formed 10-byte ceiling payload instead of any error. -/
theorem encode_color_no_reject_counterexample :
    ¬ ((4096 : Int) ≤ 255) ∧
    build_color_cmd 4096 0 0 "ceiling" 255 =
      some [126, 7, 5, 3, 16, 0, 0, 0, 0, 239] ∧
    (build_color_cmd 4096 0 0 "ceiling" 255).isSome = true := by
  refine ⟨by decide, by rfl, by rfl⟩

/-- C4 (amended): `build_color_cmd` and the brightness encoder have no
explicit range validation.  The boundary values -1 and 256 happen to make the
hex parse fail (Python's `ValueError`, not a deliberate `InvalidParameter`),
so no payload is produced there and nothing is truncated or wrapped; but
other out-of-range components such as 4096 are silently encoded into a
payload of the wrong length (10 bytes for ceiling, 11 for floor brightness).
Range checking lives in the calling menus, not in the encoder. -/
theorem encode_out_of_range_behavior :
    build_color_cmd (-1) 0 0 "ceiling" 255 = none ∧
    build_color_cmd 256 0 0 "ceiling" 255 = none ∧
    build_color_cmd (-1) 0 0 "floor" 255 = none ∧
    build_color_cmd 256 0 0 "floor" 255 = none ∧
    (build_color_cmd 4096 0 0 "ceiling" 255).map List.length = some 10 ∧
    brightness_cmd (-1) "floor" = none ∧
    brightness_cmd 256 "floor" = none ∧
    (brightness_cmd 4096 "floor").map List.length = some 11 := by
  refine ⟨by rfl, by rfl, by rfl, by rfl, by rfl, by rfl, by rfl, by rfl⟩

/-- C5: for every level in 0..255 the brightness command for the floor class
is the fixed 10-byte layout `5A 00 02 00 00 00 00 level 00 A5` — the RGB
fields (indices 3-5) zeroed and the level as the 8th byte — while for the
ceiling class no payload is produced (the menu reports the operation as
unsupported and sends nothing). -/
theorem encode_brightness_floor_only (lv : Int) (h0 : 0 ≤ lv) (h1 : lv ≤ 255) :
    brightness_cmd lv "floor" =
      some [90, 0, 2, 0, 0, 0, 0, lv.toNat, 0, 165] ∧
    brightness_cmd lv "ceiling" = none := by
  refine ⟨brightness_cmd_eval lv h0 h1, by rfl⟩

theorem encode_brightness_floor_only_witness :
    brightness_cmd 128 "floor" =
      some [90, 0, 2, 0, 0, 0, 0, (128 : Int).toNat, 0, 165] ∧
    brightness_cmd 128 "ceiling" = none :=
  encode_brightness_floor_only 128 (by decide) (by decide)

/-- C9: `build_color_cmd` takes the floor branch only on exact string
equality of `device_type` with `"floor"`; every other value — unknown or
misspelled classes included — is treated as ceiling: the result coincides
with the `"ceiling"` result for every brightness, and on in-range components
it is the 9-byte ceiling layout, distinct from the 10-byte floor result. -/
theorem color_device_type_fallthrough (dt : String) (r g b : Int)
    (hdt : dt ≠ "floor") (hr0 : 0 ≤ r) (hr1 : r ≤ 255) (hg0 : 0 ≤ g)
    (hg1 : g ≤ 255) (hb0 : 0 ≤ b) (hb1 : b ≤ 255) :
    build_color_cmd r g b dt 255 = build_color_cmd r g b "ceiling" 255 ∧
    (build_color_cmd r g b dt 255).map List.length = some 9 ∧
    build_color_cmd r g b "floor" 255 ≠ build_color_cmd r g b dt 255 := by
  have hceq : build_color_cmd r g b dt 255 = build_color_cmd r g b "ceiling" 255 := by
    rw [build_color_cmd, build_color_cmd, if_neg hdt, if_neg (by decide)]
  have hcl := ceiling_cmd_eval r g b hr0 hr1 hg0 hg1 hb0 hb1
  have hfl := floor_cmd_eval r g b hr0 hr1 hg0 hg1 hb0 hb1
  refine ⟨hceq, ?_, ?_⟩
  · rw [hceq, hcl]
    rfl
  · rw [hceq, hcl, hfl]
    intro hcontra
    have := Option.some.inj hcontra
    have hlen := congrArg List.length this
    simp at hlen
theorem color_device_type_fallthrough_witness :
    build_color_cmd 1 2 3 "Floor" 255 = build_color_cmd 1 2 3 "ceiling" 255 ∧
    (build_color_cmd 1 2 3 "Floor" 255).map List.length = some 9 ∧
    build_color_cmd 1 2 3 "floor" 255 ≠ build_color_cmd 1 2 3 "Floor" 255 :=
  color_device_type_fallthrough "Floor" 1 2 3 (by decide) (by decide) (by decide)
    (by decide) (by decide) (by decide) (by decide)

/-! ## Registry and Discovery claims -/

/-- C6: registry resolution returns an entry exactly when its name prefix is
a literal prefix of the advertised name (`pyStartsWith` coincides with list
prefixing); the returned entry always carries a longest matching prefix (all
table prefixes have length 5, so at most one can match and first-match equals
longest-match); a `none` result means no table prefix matches; and concretely
`"KS03~370058"` resolves to the `KS03~` (floor, AFD0/AFD1) profile, not
`KS03-`, while `"KS99-anything"` resolves to nothing. -/
theorem registry_resolution :
    (∀ s p : String, pyStartsWith s p = true ↔ p.data <+: s.data) ∧
    (∀ name m, resolveMapping name = some m →
      pyStartsWith name m.namePre = true ∧
      ∀ m2 ∈ DEVICE_MAPPINGS, pyStartsWith name m2.namePre = true →
        m2.namePre.length ≤ m.namePre.length) ∧
    (∀ name, resolveMapping name = none →
      ∀ m ∈ DEVICE_MAPPINGS, ¬ pyStartsWith name m.namePre = true) ∧
    resolveMapping "KS03~370058" = some ⟨"KS03~", "AFD0", "AFD1", "floor"⟩ ∧
    resolveMapping "KS99-anything" = none := by
  refine ⟨?_, ?_, ?_, by decide, by decide⟩
  · intro s p
    exact startsWithChars_iff p.data s.data
  · intro name m h
    rw [resolveMapping] at h
    have hp : pyStartsWith name m.namePre = true := by
      have := List.find?_some h
      simpa using this
    have hm : m ∈ DEVICE_MAPPINGS := List.mem_of_find?_eq_some h
    have h5 : ∀ x ∈ DEVICE_MAPPINGS, x.namePre.length = 5 := by decide
    refine ⟨hp, ?_⟩
    intro m2 hm2 _
    rw [h5 m2 hm2, h5 m hm]
  · intro name h m hm
    rw [resolveMapping] at h
    exact List.find?_eq_none.mp h m hm

theorem registry_resolution_witness :
    pyStartsWith "KS03~370058" "KS03~" = true ∧
    String.length "KS03~" ≤ String.length "KS03~" := by
  have h := registry_resolution.2.1 "KS03~370058"
    ⟨"KS03~", "AFD0", "AFD1", "floor"⟩ (by decide)
  exact ⟨h.1, h.2 ⟨"KS03~", "AFD0", "AFD1", "floor"⟩ (by decide) h.1⟩

/-- A scanner that reports one KS03 tilde device when (and only when) it is
invoked with a zero duration: used to exhibit that `scan_devices` forwards a
zero duration to the scanner unchanged and returns its filtered results. -/
def zeroDiscover : ℚ → List (String × Option String) :=
  fun t => if t = 0 then [("AA:BB:CC:DD:EE:FF", some "KS03~0058")] else []

/-- C7 counterexample: called with duration 0, `scan_devices` raises no
`InvalidParameter` — its result type has no error channel at all — and the
scan IS attempted: the scanner runs at duration 0 and its matching result is
returned. -/
theorem scan_zero_duration_counterexample :
    scan_devices zeroDiscover 0 =
      [("AA:BB:CC:DD:EE:FF", "KS03~0058", "KS03~")] := by
  decide

/-- C7 (amended): `scan_devices` performs no validation of the duration: for
every duration, zero and negative ones included, the duration is passed
unchanged to the underlying scanner, whose results are filtered by the
registry and returned normally — the recursive filtering loop is exactly a
`filterMap` over whatever the scanner produced at that duration. -/
theorem scan_no_duration_validation (discover : ℚ → List (String × Option String))
    (t : ℚ) (_h : t ≤ 0) :
    scan_devices discover t = (discover t).filterMap (fun d =>
      (resolveMapping (d.2.getD "")).map
        (fun m => (d.1, d.2.getD "", m.namePre))) := by
  rw [scan_devices, scanFilterLoop_eq_filterMap]

theorem scan_no_duration_validation_witness :
    scan_devices zeroDiscover 0 = (zeroDiscover 0).filterMap (fun d =>
      (resolveMapping (d.2.getD "")).map
        (fun m => (d.1, d.2.getD "", m.namePre))) :=
  scan_no_duration_validation zeroDiscover 0 (by decide)
